import Mathlib

/-
Shallow embedding of the invoice-OCR pipeline of this repository
(src/invoice_ocr_simple.py, src/invoice_ocr_sum.py, src/ocr_api.py).

Conventions of the embedding:
- Python floats are modelled as exact rationals; all monetary values in the
  claims are short decimal literals for which float arithmetic and rational
  arithmetic agree.
- Python exceptions are modelled as values of the type PyExn; a try/except
  block becomes an explicit match on the Except result, and an except clause
  catches exactly the exception kinds it names in the source.
- json.loads is modelled by jsonLoads below, a strict JSON parser for the
  object/array/string/number/true/false/null grammar that the standard
  library accepts; the non-standard NaN/Infinity extensions of the Python
  parser are outside the model (no claim involves them).
-/

namespace InvoiceOcr

/-- JSON values as produced by a successful json.loads call. -/
inductive Json where
  | null : Json
  | bool (b : Bool) : Json
  | num (q : ℚ) : Json
  | str (s : String) : Json
  | arr (elems : List Json) : Json
  | obj (entries : List (String × Json)) : Json
deriving Repr, Inhabited

/-- The opening-brace character, written via its code point. -/
def lbraceC : Char := Char.ofNat 123

/-- The closing-brace character, written via its code point. -/
def rbraceC : Char := Char.ofNat 125

/-- JSON whitespace (space, tab, newline, carriage return). -/
def isJsonWs (c : Char) : Bool := c = ' ' || c = '\t' || c = '\n' || c = '\r'

/-- Drop leading JSON whitespace. -/
def skipWs (cs : List Char) : List Char := cs.dropWhile isJsonWs

/-- Numeric value of a decimal digit character. -/
def digitVal (c : Char) : Nat := c.toNat - 48

/-- Read a natural number from a list of decimal digit characters. -/
def natFromDigits (ds : List Char) : Nat := ds.foldl (fun n c => 10 * n + digitVal c) 0

/-- Value of a hexadecimal digit character, if it is one. -/
def hexVal (c : Char) : Option Nat :=
  if c.isDigit then some (c.toNat - 48)
  else if 'a' ≤ c && c ≤ 'f' then some (c.toNat - 87)
  else if 'A' ≤ c && c ≤ 'F' then some (c.toNat - 55)
  else none

/-- Ten to an integer power, written so that the kernel can evaluate it. -/
def powTen : ℤ → ℚ
  | Int.ofNat n => ((10 ^ n : ℕ) : ℚ)
  | Int.negSucc n => 1 / ((10 ^ (n + 1) : ℕ) : ℚ)

/-- If cs starts with the prefix pre, return the remainder. -/
def dropLit : List Char → List Char → Option (List Char)
  | [], cs => some cs
  | _, [] => none
  | p :: ps, c :: cs => if c = p then dropLit ps cs else none

/-- Body of a JSON string after the opening quote: returns the decoded
characters and the remaining input.  Strict mode: raw control characters
are rejected; the standard escapes and uXXXX escapes are decoded. -/
def parseStrBody : Nat → List Char → List Char → Option (List Char × List Char)
  | 0, _, _ => none
  | _ + 1, [], _ => none
  | fuel + 1, c :: rest, acc =>
    if c = '"' then some (acc.reverse, rest)
    else if c = '\\' then
      match rest with
      | [] => none
      | e :: r2 =>
        if e = 'u' then
          match r2 with
          | h1 :: h2 :: h3 :: h4 :: r3 =>
            match hexVal h1, hexVal h2, hexVal h3, hexVal h4 with
            | some a, some b, some c3, some d =>
              parseStrBody fuel r3 (Char.ofNat (((a * 16 + b) * 16 + c3) * 16 + d) :: acc)
            | _, _, _, _ => none
          | _ => none
        else
          let dec : Option Char :=
            if e = '"' then some '"'
            else if e = '\\' then some '\\'
            else if e = '/' then some '/'
            else if e = 'b' then some (Char.ofNat 8)
            else if e = 'f' then some (Char.ofNat 12)
            else if e = 'n' then some '\n'
            else if e = 'r' then some '\r'
            else if e = 't' then some '\t'
            else none
          match dec with
          | some d => parseStrBody fuel r2 (d :: acc)
          | none => none
    else if c.toNat < 32 then none
    else parseStrBody fuel rest (c :: acc)

/-- A JSON number starting at the current position: optional minus sign,
integer part without leading zeros, optional fraction, optional exponent.
Returns its exact rational value and the remaining input. -/
def parseNum (cs : List Char) : Option (Json × List Char) :=
  let (neg, cs1) : Bool × List Char :=
    match cs with
    | '-' :: r => (true, r)
    | _ => (false, cs)
  let ipOpt : Option (List Char × List Char) :=
    match cs1 with
    | '0' :: r => some (['0'], r)
    | c :: _ =>
      if c.isDigit then
        some (cs1.takeWhile Char.isDigit, cs1.dropWhile Char.isDigit)
      else none
    | [] => none
  match ipOpt with
  | none => none
  | some (ip, cs2) =>
    let (fp, cs3) : List Char × List Char :=
      match cs2 with
      | '.' :: r =>
        let ds := r.takeWhile Char.isDigit
        if ds.isEmpty then ([], cs2) else (ds, r.dropWhile Char.isDigit)
      | _ => ([], cs2)
    let (ex, cs4) : Option ℤ × List Char :=
      match cs3 with
      | c :: r =>
        if c = 'e' || c = 'E' then
          let (esign, r2) : Bool × List Char :=
            match r with
            | '-' :: r3 => (true, r3)
            | '+' :: r3 => (false, r3)
            | _ => (false, r)
          let ds := r2.takeWhile Char.isDigit
          if ds.isEmpty then (none, cs3)
          else (some (if esign then -(natFromDigits ds : ℤ) else (natFromDigits ds : ℤ)),
                r2.dropWhile Char.isDigit)
        else (none, cs3)
      | [] => (none, cs3)
    let mantissa : ℤ := (natFromDigits ip * 10 ^ fp.length + natFromDigits fp : ℕ)
    let signed : ℤ := if neg then -mantissa else mantissa
    let e : ℤ := ex.getD 0 - fp.length
    some (Json.num ((signed : ℚ) * powTen e), cs4)

/-- Parsing mode: a single value, or the element/member lists of a
partially read array or object. -/
inductive JMode where
  | one : JMode
  | arrItems (acc : List Json) : JMode
  | objItems (acc : List (String × Json)) : JMode

/-- Recursive-descent core of the JSON parser, fuel-bounded. -/
def parseF : Nat → JMode → List Char → Option (Json × List Char)
  | 0, _, _ => none
  | fuel + 1, JMode.one, cs =>
    match skipWs cs with
    | [] => none
    | c :: rest =>
      if c = 'n' then
        match dropLit ['u', 'l', 'l'] rest with
        | some r => some (Json.null, r)
        | none => none
      else if c = 't' then
        match dropLit ['r', 'u', 'e'] rest with
        | some r => some (Json.bool true, r)
        | none => none
      else if c = 'f' then
        match dropLit ['a', 'l', 's', 'e'] rest with
        | some r => some (Json.bool false, r)
        | none => none
      else if c = '"' then
        match parseStrBody (rest.length + 1) rest [] with
        | some (sc, r) => some (Json.str (String.mk sc), r)
        | none => none
      else if c = '[' then parseF fuel (JMode.arrItems []) rest
      else if c = lbraceC then parseF fuel (JMode.objItems []) rest
      else parseNum (c :: rest)
  | fuel + 1, JMode.arrItems acc, cs =>
    match skipWs cs with
    | [] => none
    | c :: rest =>
      if c = ']' && acc.isEmpty then some (Json.arr [], rest)
      else
        match parseF fuel JMode.one (c :: rest) with
        | none => none
        | some (j, r) =>
          match skipWs r with
          | ',' :: r2 => parseF fuel (JMode.arrItems (acc ++ [j])) r2
          | ']' :: r2 => some (Json.arr (acc ++ [j]), r2)
          | _ => none
  | fuel + 1, JMode.objItems acc, cs =>
    match skipWs cs with
    | [] => none
    | c :: rest =>
      if c = rbraceC && acc.isEmpty then some (Json.obj [], rest)
      else if c = '"' then
        match parseStrBody (rest.length + 1) rest [] with
        | none => none
        | some (kc, r) =>
          match skipWs r with
          | ':' :: r2 =>
            match parseF fuel JMode.one r2 with
            | none => none
            | some (j, r3) =>
              match skipWs r3 with
              | ',' :: r4 => parseF fuel (JMode.objItems (acc ++ [(String.mk kc, j)])) r4
              | c2 :: r4 =>
                if c2 = rbraceC then some (Json.obj (acc ++ [(String.mk kc, j)]), r4)
                else none
              | [] => none
          | _ => none
      else none

/-- Model of json.loads: parse one JSON value, allow surrounding
whitespace, and require the whole input to be consumed.  Failure (none)
models a raised json.JSONDecodeError.  The fuel is an upper bound on the
number of recursive steps, which never exceeds twice the input length. -/
def jsonLoads (s : String) : Option Json :=
  match parseF (2 * s.data.length + 8) JMode.one s.data with
  | some (j, rest) => if (skipWs rest).isEmpty then some j else none
  | none => none

/-- Python dict lookup on the entry list of a decoded object: with
duplicate keys the later entry wins, as in the dict json.loads builds. -/
def dictGet (entries : List (String × Json)) (key : String) : Option Json :=
  entries.foldl (fun acc e => if e.1 = key then some e.2 else acc) none

/-- The Python exception kinds raised by the code under consideration. -/
inductive PyExn where
  | valueError : PyExn
  | attributeError : PyExn
  | jsonDecodeError : PyExn
  | httpError : PyExn
  | urlError : PyExn
  | runtimeError : PyExn
  | fileNotFoundError : PyExn
deriving Repr, DecidableEq

/-- Every modelled exception kind derives from Exception, so a bare
except-Exception clause catches it. -/
def pyIsException (_ : PyExn) : Bool := true

/-- Which kinds an except-ValueError clause catches: ValueError itself and
its subclass json.JSONDecodeError. -/
def PyExn.isValueError : PyExn → Bool
  | PyExn.valueError => true
  | PyExn.jsonDecodeError => true
  | _ => false

/-- Which kinds an except-(HTTPError, URLError) clause catches. -/
def PyExn.isNetworkError : PyExn → Bool
  | PyExn.httpError => true
  | PyExn.urlError => true
  | _ => false

/-- Whitespace for Python str.strip with no argument (the ASCII cases;
the further Unicode whitespace code points never occur in the claims). -/
def isPyWs (c : Char) : Bool :=
  c = ' ' || c = '\t' || c = '\n' || c = '\r' || c = Char.ofNat 11 || c = Char.ofNat 12

/-- Python str.strip(): drop leading and trailing whitespace. -/
def pyStrip (s : String) : String :=
  String.mk (((s.data.dropWhile isPyWs).reverse.dropWhile isPyWs).reverse)

/-- Python s.replace(",", ""): drop every comma. -/
def stripCommas (s : String) : String :=
  String.mk (s.data.filter (fun c => c != ','))

/-- Model of Python float(s) on a str argument: surrounding whitespace is
ignored, then an optional sign and a finite decimal with optional fraction
and exponent.  The inf/nan spellings and underscore digit grouping are
outside the model (no claim involves them); failure models a ValueError. -/
def pyFloatOfStr (s : String) : Option ℚ :=
  let cs0 := (pyStrip s).data
  let (neg, cs1) : Bool × List Char :=
    match cs0 with
    | '-' :: r => (true, r)
    | '+' :: r => (false, r)
    | _ => (false, cs0)
  let ip := cs1.takeWhile Char.isDigit
  let cs2 := cs1.dropWhile Char.isDigit
  let (fp, cs3) : List Char × List Char :=
    match cs2 with
    | '.' :: r => (r.takeWhile Char.isDigit, r.dropWhile Char.isDigit)
    | _ => ([], cs2)
  if ip.isEmpty && fp.isEmpty then none
  else
    let mkVal : ℤ → Option ℚ := fun ex =>
      let mantissa : ℤ := (natFromDigits ip * 10 ^ fp.length + natFromDigits fp : ℕ)
      let signed : ℤ := if neg then -mantissa else mantissa
      some ((signed : ℚ) * powTen (ex - fp.length))
    match cs3 with
    | [] => mkVal 0
    | c :: r =>
      if c = 'e' || c = 'E' then
        let (esign, r2) : Bool × List Char :=
          match r with
          | '-' :: r3 => (true, r3)
          | '+' :: r3 => (false, r3)
          | _ => (false, r)
        let ds := r2.takeWhile Char.isDigit
        if ds.isEmpty then none
        else if (r2.dropWhile Char.isDigit).isEmpty then
          mkVal (if esign then -(natFromDigits ds : ℤ) else (natFromDigits ds : ℤ))
        else none
      else none

/-- Exception-level view of float() on a str: failure raises ValueError. -/
def floatOfPyStrE (s : String) : Except PyExn ℚ :=
  match pyFloatOfStr s with
  | some q => Except.ok q
  | none => Except.error PyExn.valueError

/-- Model of float(val.replace(",", "").strip() or 0) on a str val: an
empty string after stripping is replaced by 0, otherwise float() runs. -/
def coerceNumStrE (v : String) : Except PyExn ℚ :=
  let t := pyStrip (stripCommas v)
  if t = "" then Except.ok 0 else floatOfPyStrE t

/-- One match of the regular expression [-+]?\d+(?:[.,]\d+)? at the
current position: optional sign, digits, then at most one comma-or-dot
group with digits.  Returns the matched characters and the rest. -/
def matchNum (cs : List Char) : Option (List Char × List Char) :=
  let (sign, cs1) : List Char × List Char :=
    match cs with
    | '-' :: r => (['-'], r)
    | '+' :: r => (['+'], r)
    | _ => ([], cs)
  let d1 := cs1.takeWhile Char.isDigit
  if d1.isEmpty then none
  else
    let cs2 := cs1.dropWhile Char.isDigit
    match cs2 with
    | sep :: r =>
      if sep = '.' || sep = ',' then
        let d2 := r.takeWhile Char.isDigit
        if d2.isEmpty then some (sign ++ d1, cs2)
        else some (sign ++ d1 ++ sep :: d2, r.dropWhile Char.isDigit)
      else some (sign ++ d1, cs2)
    | [] => some (sign ++ d1, [])

/-- Model of re.findall with that pattern: scan left to right, taking
non-overlapping matches and skipping characters where no match starts. -/
def findNums : Nat → List Char → List String
  | 0, _ => []
  | _ + 1, [] => []
  | fuel + 1, c :: rest =>
    match matchNum (c :: rest) with
    | some (m, r) => String.mk m :: findNums fuel r
    | none => findNums fuel rest

/-- Structured attempt of parse_amount (src/invoice_ocr_simple.py): decode
JSON; on a dict carrying a "total" key return its coerced value (some),
otherwise fall through (none); exceptions escape as Except.error. -/
def parse_amount_structured (s : String) : Except PyExn (Option ℚ) :=
  match jsonLoads s with
  | none => Except.error PyExn.jsonDecodeError
  | some data =>
    match data with
    | Json.obj entries =>
      match dictGet entries "total" with
      | none => Except.ok none
      | some val =>
        match val with
        | Json.num q => Except.ok (some q)
        | Json.bool b => Except.ok (some (if b then 1 else 0))
        | Json.str v => (coerceNumStrE v).map some
        | _ => Except.ok none
    | _ => Except.ok none

/-- The floats collected in the fallback loop of parse_amount: each match
is comma-stripped and converted with float(); a ValueError is skipped by
the except-ValueError clause, any other exception would propagate. -/
def fallbackNumsE : List String → Except PyExn (List ℚ)
  | [] => Except.ok []
  | m :: rest =>
    match floatOfPyStrE (stripCommas m) with
    | Except.ok q => (fallbackNumsE rest).map (fun l => q :: l)
    | Except.error e => if e.isValueError then fallbackNumsE rest else Except.error e

/-- Python max over a nonempty list, left fold from the head. -/
def maxQ (q : ℚ) (l : List ℚ) : ℚ := l.foldl max q

/-- Fallback branch of parse_amount: the maximum of all numeric
substrings of the raw text, or 0.0 when there are none. -/
def fallback_amount_E (s : String) : Except PyExn ℚ :=
  (fallbackNumsE (findNums s.data.length s.data)).map (fun nums =>
    match nums with
    | [] => 0
    | q :: rest => maxQ q rest)

/-- Exception-level model of parse_amount (src/invoice_ocr_simple.py,
lines 120-140): the structured attempt is wrapped in try/except Exception
with a pass body, after which the fallback scan runs unless the try block
already returned a value. -/
def parse_amountE (s : String) : Except PyExn ℚ :=
  match parse_amount_structured s with
  | Except.ok (some q) => Except.ok q
  | Except.ok none => fallback_amount_E s
  | Except.error e => if pyIsException e then fallback_amount_E s else Except.error e

/-- parse_amount as the caller sees it (the theorem for claim C6 shows the
error branch is unreachable). -/
def parse_amount (s : String) : ℚ :=
  match parse_amountE s with
  | Except.ok q => q
  | Except.error _ => 0

/-- The plain value of the fallback branch. -/
def fallback_amount (s : String) : ℚ :=
  match fallback_amount_E s with
  | Except.ok q => q
  | Except.error _ => 0

/-- The InvoiceInfo dataclass of src/invoice_ocr_sum.py with its field
defaults; monetary fields are rationals standing for Python floats. -/
structure InvoiceInfo where
  invoice_no : String := ""
  issue_date : String := ""
  seller : String := ""
  buyer : String := ""
  total : ℚ := 0
  tax : ℚ := 0
  subtotal : ℚ := 0
  items : String := ""
  notes : String := ""
  invoice_type : String := ""
  invoice_type_name : String := ""
  expense_category : String := ""
  expense_category_name : String := ""
  risk_level : String := ""
  risk_notes : String := ""
  has_stamp : Bool := true
  image_quality : String := ""
deriving Repr, DecidableEq, Inhabited

/-- Python str() of a decoded JSON value.  The str case is exact; the
renderings of the other cases approximate the Python repr and are never
reached by any claim (the spec's claims about these fields only concern
values that arrive as JSON strings). -/
def pyStrOfJson : Json → String
  | Json.str s => s
  | Json.null => "None"
  | Json.bool true => "True"
  | Json.bool false => "False"
  | Json.num q => if q.den = 1 then toString q.num else toString q
  | Json.arr _ => "[...]"
  | Json.obj _ => "\x7b...\x7d"

/-- The numeric-field coercion of parse_invoice_info: a native number is
converted with float() (a bool counts as an int), a string goes through
the comma-strip/strip/float path whose ValueError or AttributeError is
caught and replaced by 0.0, and any other value leaves the field
untouched (none). -/
def numFieldE (val : Json) : Except PyExn (Option ℚ) :=
  match val with
  | Json.num q => Except.ok (some q)
  | Json.bool b => Except.ok (some (if b then 1 else 0))
  | Json.str v =>
    match coerceNumStrE v with
    | Except.ok q => Except.ok (some q)
    | Except.error e =>
      if e.isValueError || e = PyExn.attributeError then Except.ok (some 0)
      else Except.error e
  | _ => Except.ok none

/-- Body of parse_invoice_info after a successful json.loads: assign the
string fields, then the numeric fields total, tax, subtotal in order.
Returns the info together with the exception that escaped the body, if
any (the theorem for claim C6 shows none ever does). -/
def parse_invoice_info_body (data : Json) : InvoiceInfo × Option PyExn :=
  match data with
  | Json.obj entries =>
    let gets : String → Json := fun k => (dictGet entries k).getD (Json.str "")
    let getn : String → Json := fun k => (dictGet entries k).getD (Json.num 0)
    let info0 : InvoiceInfo :=
      { invoice_no := pyStrip (pyStrOfJson (gets "invoice_no")),
        issue_date := pyStrip (pyStrOfJson (gets "issue_date")),
        seller := pyStrip (pyStrOfJson (gets "seller")),
        buyer := pyStrip (pyStrOfJson (gets "buyer")),
        items := pyStrip (pyStrOfJson (gets "items")),
        notes := pyStrip (pyStrOfJson (gets "notes")) }
    match numFieldE (getn "total") with
    | Except.error e => (info0, some e)
    | Except.ok o1 =>
      let info1 := match o1 with
        | some q => { info0 with total := q }
        | none => info0
      match numFieldE (getn "tax") with
      | Except.error e => (info1, some e)
      | Except.ok o2 =>
        let info2 := match o2 with
          | some q => { info1 with tax := q }
          | none => info1
        match numFieldE (getn "subtotal") with
        | Except.error e => (info2, some e)
        | Except.ok o3 =>
          (match o3 with
            | some q => { info2 with subtotal := q }
            | none => info2,
           none)
  | _ => ({}, none)

/-- Exception-level model of parse_invoice_info (src/invoice_ocr_sum.py,
lines 323-350): the whole body sits in try/except Exception with a pass
handler, and the info assembled so far is returned either way. -/
def parse_invoice_infoE (s : String) : Except PyExn InvoiceInfo :=
  match jsonLoads s with
  | none =>
    if pyIsException PyExn.jsonDecodeError then Except.ok {}
    else Except.error PyExn.jsonDecodeError
  | some data =>
    match parse_invoice_info_body data with
    | (info, none) => Except.ok info
    | (info, some e) => if pyIsException e then Except.ok info else Except.error e

/-- parse_invoice_info as the caller sees it (claim C6's theorem shows
the error branch is unreachable). -/
def parse_invoice_info (s : String) : InvoiceInfo :=
  match parse_invoice_infoE s with
  | Except.ok i => i
  | Except.error _ => {}

/-- Python truthiness of a decoded JSON value, as applied to the result
of data.get("is_invoice", False). -/
def jsonTruthy : Json → Bool
  | Json.null => false
  | Json.bool b => b
  | Json.num q => q != 0
  | Json.str s => s != ""
  | Json.arr xs => !xs.isEmpty
  | Json.obj kvs => !kvs.isEmpty

/-- validate_is_invoice (src/invoice_ocr_sum.py, lines 353-361) given the
outcome of its call_ollama_ocr call: every failure path (provider error,
undecodable response, non-dict response) is caught and treated as
"assume it is an invoice" by returning True. -/
def validate_is_invoice (resp : Except PyExn String) : Bool :=
  match resp with
  | Except.error _ => true
  | Except.ok text =>
    match jsonLoads text with
    | none => true
    | some data =>
      match data with
      | Json.obj entries => jsonTruthy ((dictGet entries "is_invoice").getD (Json.bool false))
      | _ => true

/-- Which prompt a provider invocation carries. -/
inductive Prompt where
  | validation : Prompt
  | extraction : Prompt
deriving Repr, DecidableEq

/-- Instrumentation: how often the provider was invoked, in total and per
prompt kind. -/
structure Calls where
  total : Nat := 0
  validation : Nat := 0
  extraction : Nat := 0
deriving Repr, DecidableEq

/-- Environment of one process_file run: whether the path is a PDF, the
outcome of each rasterization attempt, and the provider's response to its
n-th invocation (n counts all invocations, validation and extraction). -/
structure ProcEnv where
  isPdf : Bool
  raster : Nat → Except PyExn Unit
  respond : Nat → Prompt → Except PyExn String

/-- Count one provider invocation. -/
def bump (st : Calls) (p : Prompt) : Calls :=
  match p with
  | Prompt.validation =>
    { st with total := st.total + 1, validation := st.validation + 1 }
  | Prompt.extraction =>
    { st with total := st.total + 1, extraction := st.extraction + 1 }

/-- call_ollama_ocr (src/invoice_ocr_sum.py, lines 282-320): one provider
invocation; on both the OCR_PROVIDER path and the direct-Ollama fallback
every exception of the call is caught and re-raised as a RuntimeError, so
an HTTPError or URLError never reaches process_file directly. -/
def call_ollama_ocr (env : ProcEnv) (st : Calls) (p : Prompt) :
    Except PyExn String × Calls :=
  (match env.respond st.total p with
   | Except.ok s => Except.ok s
   | Except.error _ => Except.error PyExn.runtimeError,
   bump st p)

/-- Short rendering of an exception for the error strings process_file
accumulates; only the presence of the strings matters to the claims. -/
def pyExnStr : PyExn → String
  | PyExn.valueError => "ValueError"
  | PyExn.attributeError => "AttributeError"
  | PyExn.jsonDecodeError => "JSONDecodeError"
  | PyExn.httpError => "HTTPError"
  | PyExn.urlError => "URLError"
  | PyExn.runtimeError => "RuntimeError"
  | PyExn.fileNotFoundError => "FileNotFoundError"

/-- Result of process_file, instrumented with the invocation counts. -/
structure Outcome where
  info : InvoiceInfo
  errors : List String
  calls : Calls
deriving Repr, DecidableEq

/-- The while-loop of process_file (src/invoice_ocr_sum.py, lines
441-528) at the given retry_count; the fuel argument equals
max_retries + 1 - retry_count, so fuel 0 is the normal loop exit.  The
PDF and image branches of the source differ only in the rasterization
step, modelled by the raster component.  Validation runs only when
retry_count == 0 (short-circuit and); the inner try distinguishes
network errors from other exceptions, though call_ollama_ocr only ever
raises RuntimeError. -/
def process_file_loop (env : ProcEnv) (maxRetries : Nat) :
    Nat → Nat → Calls → InvoiceInfo → List String → Outcome
  | 0, _, st, info, errors => ⟨info, errors, st⟩
  | fuel + 1, retryCount, st, info, errors =>
    match (if env.isPdf then env.raster retryCount else Except.ok ()) with
    | Except.error e =>
      if retryCount < maxRetries then
        process_file_loop env maxRetries fuel (retryCount + 1) st info errors
      else ⟨info, errors ++ ["预处理失败: " ++ pyExnStr e], st⟩
    | Except.ok _ =>
      let vstep : Bool × Calls :=
        if retryCount = 0 then
          let r := call_ollama_ocr env st Prompt.validation
          (validate_is_invoice r.1, r.2)
        else (true, st)
      if !vstep.1 then ⟨info, errors ++ ["非发票"], vstep.2⟩
      else
        let estep := call_ollama_ocr env vstep.2 Prompt.extraction
        match estep.1 with
        | Except.ok response =>
          let parsed := parse_invoice_info response
          if 0 < parsed.total then ⟨parsed, errors, estep.2⟩
          else if retryCount < maxRetries then
            process_file_loop env maxRetries fuel (retryCount + 1) estep.2 parsed errors
          else ⟨parsed, errors ++ ["OCR 失败: 未识别到金额"], estep.2⟩
        | Except.error e =>
          if e.isNetworkError then
            if retryCount < maxRetries then
              process_file_loop env maxRetries fuel (retryCount + 1) estep.2 info errors
            else ⟨info, errors ++ ["Ollama 网络错误: " ++ pyExnStr e], estep.2⟩
          else
            if retryCount < maxRetries then
              process_file_loop env maxRetries fuel (retryCount + 1) estep.2 info errors
            else ⟨info, errors ++ ["OCR 失败: " ++ pyExnStr e], estep.2⟩

/-- process_file: run the retry loop from retry_count 0 with a fresh
InvoiceInfo and empty error list. -/
def process_file (env : ProcEnv) (maxRetries : Nat) : Outcome :=
  process_file_loop env maxRetries (maxRetries + 1) 0 {} {} []

/-- One element of the batch: (path name, parsed info, error list). -/
abbrev InvoiceEntry := String × InvoiceInfo × List String

/-- Overwrite-or-append update of the invoice_nos dict. -/
def setAssoc : List (String × String) → String → String → List (String × String)
  | [], k, v => [(k, v)]
  | (k0, v0) :: rest, k, v =>
    if k0 = k then (k0, v) :: rest else (k0, v0) :: setAssoc rest k v

/-- Membership test on the invoice_nos dict. -/
def hasKey (m : List (String × String)) (k : String) : Bool :=
  m.any (fun e => e.1 == k)

/-- The duplicate-number scan of validate_and_analyze: a non-empty
invoice_no already seen appends one entry to duplicates; the seen dict is
updated with the path either way. -/
def dupScan : List InvoiceEntry → List (String × String) → List String
  | [], _ => []
  | (path, info, _errs) :: rest, seen =>
    if info.invoice_no = "" then dupScan rest seen
    else if hasKey seen info.invoice_no then
      info.invoice_no :: dupScan rest (setAssoc seen info.invoice_no path)
    else dupScan rest (seen ++ [(info.invoice_no, path)])

/-- Count-and-total bump of the by_month / by_seller dicts, preserving
first-insertion order as a Python dict does. -/
def bumpGroup : List (String × Nat × ℚ) → String → ℚ → List (String × Nat × ℚ)
  | [], key, amt => [(key, 1, amt)]
  | (k, c, t) :: rest, key, amt =>
    if k = key then (k, c + 1, t + amt) :: rest
    else (k, c, t) :: bumpGroup rest key amt

/-- The outlier scan of validate_and_analyze: entries with a positive
total exceeding avg_amount * 3 are flagged.  The source renders each flag
as a formatted message naming the file and the amount; the model keeps
the (path, amount) pair that message is built from. -/
def warnScan (avg : ℚ) : List InvoiceEntry → List (String × ℚ)
  | [] => []
  | (path, info, _errs) :: rest =>
    if 0 < info.total && avg * 3 < info.total then
      (path, info.total) :: warnScan avg rest
    else warnScan avg rest

/-- The analysis dict built by validate_and_analyze; the three amount
ranges are the "0-1000", "1000-10000" and "10000+" buckets. -/
structure Analysis where
  total_count : Nat
  valid_count : Nat
  total_amount : ℚ
  duplicates : List String
  warnings : List (String × ℚ)
  by_month : List (String × Nat × ℚ)
  by_seller : List (String × Nat × ℚ)
  range_low : Nat
  range_mid : Nat
  range_high : Nat
deriving Repr, DecidableEq

/-- validate_and_analyze (src/invoice_ocr_sum.py, lines 531-590). -/
def validate_and_analyze (invoices : List InvoiceEntry) : Analysis :=
  let total_count := invoices.length
  let valid_count :=
    invoices.countP (fun x => decide (0 < x.2.1.total) && x.2.2.isEmpty)
  let total_amount := (invoices.map (fun x => x.2.1.total)).sum
  let by_month := invoices.foldl (fun m x =>
    if x.2.1.issue_date ≠ "" then bumpGroup m (x.2.1.issue_date.take 7) x.2.1.total
    else m) []
  let by_seller := invoices.foldl (fun m x =>
    if x.2.1.seller ≠ "" then bumpGroup m (x.2.1.seller.take 20) x.2.1.total
    else m) []
  let ranges := invoices.foldl (fun (r : Nat × Nat × Nat) x =>
    let t := x.2.1.total
    if 0 < t then
      if t < 1000 then (r.1 + 1, r.2.1, r.2.2)
      else if t < 10000 then (r.1, r.2.1 + 1, r.2.2)
      else (r.1, r.2.1, r.2.2 + 1)
    else r) (0, 0, 0)
  let warnings :=
    if 0 < total_count then warnScan (total_amount / total_count) invoices else []
  { total_count := total_count,
    valid_count := valid_count,
    total_amount := total_amount,
    duplicates := dupScan invoices [],
    warnings := warnings,
    by_month := by_month,
    by_seller := by_seller,
    range_low := ranges.1,
    range_mid := ranges.2.1,
    range_high := ranges.2.2 }

/-- Values a configuration dict may hold for the keys create_provider
reads. -/
inductive PyVal where
  | str (s : String) : PyVal
  | int (n : ℤ) : PyVal
deriving Repr, DecidableEq

/-- A configuration dict, as key/value pairs with unique keys. -/
abbrev Config := List (String × PyVal)

/-- Python config.get(key, default). -/
def cfgGet (config : Config) (key : String) (dflt : PyVal) : PyVal :=
  match config.lookup key with
  | some v => v
  | none => dflt

/-- The three provider classes of src/ocr_api.py with the constructor
arguments create_provider passes. -/
inductive Provider where
  | ollamaP (host : PyVal) (port : PyVal) (model : PyVal) : Provider
  | volcengineP (api_key : PyVal) (model : PyVal) : Provider
  | openrouterP (api_key : PyVal) (model : PyVal) : Provider
deriving Repr, DecidableEq

/-- create_provider (src/ocr_api.py, lines 229-250): a missing "provider"
key defaults to "ollama"; an unrecognized value raises ValueError. -/
def create_provider (config : Config) : Except PyExn Provider :=
  let provider_type := cfgGet config "provider" (PyVal.str "ollama")
  if provider_type = PyVal.str "ollama" then
    Except.ok (Provider.ollamaP
      (cfgGet config "ollama_host" (PyVal.str "192.168.110.219"))
      (cfgGet config "ollama_port" (PyVal.int 11434))
      (cfgGet config "ollama_model" (PyVal.str "qwen3-vl:8b")))
  else if provider_type = PyVal.str "volcengine" then
    Except.ok (Provider.volcengineP
      (cfgGet config "volcengine_api_key" (PyVal.str ""))
      (cfgGet config "volcengine_model" (PyVal.str "")))
  else if provider_type = PyVal.str "openrouter" then
    Except.ok (Provider.openrouterP
      (cfgGet config "openrouter_api_key" (PyVal.str ""))
      (cfgGet config "openrouter_model" (PyVal.str "google/gemini-2.0-flash-exp:free")))
  else Except.error PyExn.valueError

/-! Concrete inputs used by the claims. -/

/-- A structured response whose "total" field is negative. -/
def negTotalText : String := "\x7b\"total\": -5\x7d"

/-- A structured response whose "total" field is a non-numeric string. -/
def strTotalText : String := "\x7b\"total\": \"abc\"\x7d"

/-- A response that is not JSON at all. -/
def unparsableText : String := "not json"

/-- The raw fallback text of the spec's parser example. -/
def mixedText : String := "合计: 1,234.56 元, 税率6%"

/-- A raw text with no numeric substrings. -/
def noNumText : String := "合计元"

/-- A classification response that affirms the document is an invoice. -/
def okValidationText : String := "\x7b\"is_invoice\": true\x7d"

/-- A classification response that denies the document is an invoice. -/
def notInvoiceText : String := "\x7b\"is_invoice\": false\x7d"

/-- An extraction response carrying a zero amount. -/
def zeroTotalText : String := "\x7b\"total\": 0\x7d"

/-- An extraction response carrying a positive amount. -/
def posTotalText : String := "\x7b\"total\": 520.5\x7d"

/-- A provider stub that raises a network error on every invocation. -/
def envNetErr : ProcEnv :=
  { isPdf := false, raster := fun _ => Except.ok (),
    respond := fun _ _ => Except.error PyExn.urlError }

/-- A provider stub answering the validation call affirmatively, then a
zero amount on the first two extraction calls and a positive amount on
the third (invocation 0 is the validation call). -/
def envZeroZeroPos : ProcEnv :=
  { isPdf := false, raster := fun _ => Except.ok (),
    respond := fun n _ =>
      if n = 0 then Except.ok okValidationText
      else if n ≤ 2 then Except.ok zeroTotalText
      else Except.ok posTotalText }

/-- A provider stub that classifies the document as not an invoice. -/
def envNotInvoice : ProcEnv :=
  { isPdf := false, raster := fun _ => Except.ok (),
    respond := fun _ _ => Except.ok notInvoiceText }

/-- A provider stub that validates affirmatively and then always returns
a zero amount, forcing the retry loop to exhaust its budget. -/
def envAlwaysZero : ProcEnv :=
  { isPdf := false, raster := fun _ => Except.ok (),
    respond := fun n _ =>
      if n = 0 then Except.ok okValidationText else Except.ok zeroTotalText }

/-- An extraction result carrying the duplicate-test identifier. -/
def inv001 : InvoiceInfo := { invoice_no := "INV-001" }

/-- An extraction result with an empty identifier. -/
def invBlank : InvoiceInfo := {}

/-- An extraction result with a different identifier. -/
def invOther : InvoiceInfo := { invoice_no := "INV-002" }

/-- Three outcomes sharing the identifier INV-001. -/
def dupsThree : List InvoiceEntry :=
  [("a.pdf", inv001, []), ("b.pdf", inv001, []), ("c.pdf", inv001, [])]

/-- Exactly two outcomes share INV-001; one identifier is empty and one
is different. -/
def dupsTwo : List InvoiceEntry :=
  [("a.pdf", inv001, []), ("b.pdf", invBlank, []),
   ("c.pdf", inv001, []), ("d.pdf", invOther, [])]

/-- Outcomes whose identifiers are all empty. -/
def dupsBlank : List InvoiceEntry :=
  [("a.pdf", invBlank, []), ("b.pdf", invBlank, [])]

/-- The outlier-detection example batch with totals 100, 100, 100, 1000. -/
def batch9 : List InvoiceEntry :=
  [("a.pdf", { total := 100 }, []), ("b.pdf", { total := 100 }, []),
   ("c.pdf", { total := 100 }, []), ("d.pdf", { total := 1000 }, [])]

/-! Helper lemmas. -/

/-- float() on a str either yields a value or raises exactly ValueError. -/
lemma floatOfPyStrE_cases (s : String) :
    (∃ q, floatOfPyStrE s = Except.ok q) ∨ floatOfPyStrE s = Except.error PyExn.valueError := by
  unfold floatOfPyStrE
  cases pyFloatOfStr s <;> simp

/-- The comma-strip/strip/float coercion either yields a value or raises
exactly ValueError. -/
lemma coerceNumStrE_cases (v : String) :
    (∃ q, coerceNumStrE v = Except.ok q) ∨ coerceNumStrE v = Except.error PyExn.valueError := by
  simp only [coerceNumStrE]
  split
  · exact Or.inl ⟨0, rfl⟩
  · exact floatOfPyStrE_cases _

/-- The numeric-field coercion of parse_invoice_info never lets an
exception escape: every failure kind it can see is caught. -/
lemma numFieldE_ok (v : Json) : ∃ o, numFieldE v = Except.ok o := by
  cases v with
  | str v =>
    rcases coerceNumStrE_cases v with ⟨q, hq⟩ | he
    · exact ⟨some q, by simp [numFieldE, hq]⟩
    · exact ⟨some 0, by simp [numFieldE, he, PyExn.isValueError]⟩
  | num q => exact ⟨some q, rfl⟩
  | bool b => exact ⟨some (if b then 1 else 0), rfl⟩
  | null => exact ⟨none, rfl⟩
  | arr xs => exact ⟨none, rfl⟩
  | obj kvs => exact ⟨none, rfl⟩

/-- The fallback loop of parse_amount never lets an exception escape:
its float() calls raise only ValueError, which the loop catches. -/
lemma fallbackNumsE_ok (ms : List String) : ∃ l, fallbackNumsE ms = Except.ok l := by
  induction ms with
  | nil => exact ⟨[], rfl⟩
  | cons m rest ih =>
    obtain ⟨l, hl⟩ := ih
    rcases floatOfPyStrE_cases (stripCommas m) with ⟨q, hq⟩ | he
    · exact ⟨q :: l, by simp [fallbackNumsE, hq, hl, Except.map]⟩
    · exact ⟨l, by simp [fallbackNumsE, he, hl, PyExn.isValueError]⟩

/-- The whole fallback branch of parse_amount returns normally. -/
lemma fallback_amount_E_ok (s : String) : ∃ q, fallback_amount_E s = Except.ok q := by
  obtain ⟨l, hl⟩ := fallbackNumsE_ok (findNums s.data.length s.data)
  unfold fallback_amount_E
  rw [hl]
  cases l with
  | nil => exact ⟨0, rfl⟩
  | cons q rest => exact ⟨maxQ q rest, rfl⟩

/-- After a successful json.loads the except-Exception wrapper of
parse_invoice_info returns the body's info whether or not an exception
escaped the body. -/
lemma parse_invoice_infoE_of_loads (s : String) (data : Json)
    (h : jsonLoads s = some data) :
    parse_invoice_infoE s = Except.ok (parse_invoice_info_body data).1 := by
  rcases hb : parse_invoice_info_body data with ⟨info, oe⟩
  simp only [parse_invoice_infoE, h, hb]
  cases oe <;> simp [pyIsException]

/-- numFieldE of a JSON number succeeds immediately with that value. -/
lemma numFieldE_num (q : ℚ) : numFieldE (Json.num q) = Except.ok (some q) := rfl

/-- A "total" field holding a JSON number is copied verbatim into the
total field of the parsed info, whatever the other fields hold. -/
lemma parse_invoice_info_body_total (entries : List (String × Json)) (q : ℚ)
    (h : dictGet entries "total" = some (Json.num q)) :
    (parse_invoice_info_body (Json.obj entries)).1.total = q := by
  unfold parse_invoice_info_body
  obtain ⟨o2, h2⟩ := numFieldE_ok ((dictGet entries "tax").getD (Json.num 0))
  obtain ⟨o3, h3⟩ := numFieldE_ok ((dictGet entries "subtotal").getD (Json.num 0))
  simp only [h, Option.getD_some, numFieldE_num, h2, h3]
  cases o2 <;> cases o3 <;> simp

/-- The map-sum of the totals splits over the error-free / errored
partition of the batch. -/
lemma sum_totals_split (l : List InvoiceEntry) :
    (l.map (fun x => x.2.1.total)).sum
      = ((l.filter (fun x => x.2.2.isEmpty)).map (fun x => x.2.1.total)).sum
        + ((l.filter (fun x => !x.2.2.isEmpty)).map (fun x => x.2.1.total)).sum := by
  induction l with
  | nil => simp
  | cons x rest ih =>
    by_cases hx : x.2.2.isEmpty <;> simp [List.filter_cons, hx, ih] <;> ring

/-- The outlier scan is the filter-and-project of the flag condition. -/
lemma warnScan_eq (avg : ℚ) (l : List InvoiceEntry) :
    warnScan avg l
      = (l.filter (fun x => decide (0 < x.2.1.total) && decide (avg * 3 < x.2.1.total))).map
          (fun x => (x.1, x.2.1.total)) := by
  induction l with
  | nil => rfl
  | cons x rest ih =>
    rcases x with ⟨xp, xinfo, xerrs⟩
    by_cases h1 : (decide (0 < xinfo.total) && decide (avg * 3 < xinfo.total)) = true
    · simp [warnScan, List.filter_cons, h1, ih]
    · simp [warnScan, List.filter_cons, h1, ih]

/-- Scanning a run of identical INV-001 rows from a seen-state that
already contains INV-001 flags every row. -/
lemma dupScan_rep (m : Nat) :
    dupScan (List.replicate m ("a.pdf", inv001, ([] : List String))) [("INV-001", "a.pdf")]
      = List.replicate m "INV-001" := by
  induction m with
  | zero => rfl
  | succ k ih =>
    rw [List.replicate_succ, List.replicate_succ]
    have h : inv001.invoice_no = "INV-001" := rfl
    simp [dupScan, hasKey, setAssoc, h, ih]

/-! The claims. -/

set_option maxRecDepth 8000 in
/-- C1 is false on the code: the response whose "total" field is -5
parses to -5.0, a negative value, in both parse_amount and
parse_invoice_info — not to 0.0 as the claim requires. -/
theorem C1_counterexample :
    parse_amount negTotalText = -5 ∧
    (parse_invoice_info negTotalText).total = -5 ∧
    parse_amount negTotalText < 0 := by
  refine ⟨?_, ?_, ?_⟩ <;> with_unfolding_all decide

set_option maxRecDepth 8000 in
/-- C1 (amended): a numeric "total" field — negative included — parses to
exactly its value, so parsed totals can be negative; a non-numeric or
missing total still yields 0.0 in parse_invoice_info, and a response that
is not JSON yields the all-default info. -/
theorem C1_amended :
    (parse_invoice_info negTotalText).total = -5 ∧
    parse_amount negTotalText = -5 ∧
    (parse_invoice_info strTotalText).total = 0 ∧
    (parse_invoice_info unparsableText).total = 0 ∧
    (∀ s entries q, jsonLoads s = some (Json.obj entries) →
      dictGet entries "total" = some (Json.num q) →
      (parse_invoice_info s).total = q) := by
  refine ⟨by with_unfolding_all decide, by with_unfolding_all decide,
    by with_unfolding_all decide, by with_unfolding_all decide, ?_⟩
  intro s entries q h1 h2
  have h3 := parse_invoice_infoE_of_loads s (Json.obj entries) h1
  simp only [parse_invoice_info, h3]
  exact parse_invoice_info_body_total entries q h2

set_option maxRecDepth 8000 in
/-- Witness for C1's amended theorem at the concrete negative input. -/
theorem C1_amended_witness :
    (parse_invoice_info negTotalText).total = -5 :=
  C1_amended.2.2.2.2 negTotalText [("total", Json.num (-5))] (-5)
    (by with_unfolding_all rfl) (by with_unfolding_all rfl)

set_option maxRecDepth 8000 in
/-- C2 is false on the code at its own example: the fallback scan of
"合计: 1,234.56 元, 税率6%" returns 1234.0, not 1234.56, because the
regex captures at most one comma-or-dot digit group per token. -/
theorem C2_counterexample :
    parse_amount mixedText = 1234 ∧
    ¬ parse_amount mixedText = (1234.56 : ℚ) := by
  constructor <;> with_unfolding_all decide

set_option maxRecDepth 8000 in
/-- C2 (amended): when structured decoding fails, parse_amount scans the
raw text for numeric substrings and returns their maximum (0.0 when none
exist); the example text tokenizes as 1,234 / 56 / 6 and parses to
1234.0 — not 6, but not 1234.56 either. -/
theorem C2_amended :
    parse_amount mixedText = 1234 ∧
    ¬ parse_amount mixedText = 6 ∧
    findNums mixedText.data.length mixedText.data = ["1,234", "56", "6"] ∧
    parse_amount noNumText = 0 ∧
    (∀ s, jsonLoads s = none → parse_amount s = fallback_amount s) := by
  refine ⟨by with_unfolding_all decide, by with_unfolding_all decide, by decide,
    by with_unfolding_all decide, ?_⟩
  intro s h
  simp only [parse_amount, parse_amountE, parse_amount_structured, h, pyIsException,
    if_true, fallback_amount]

set_option maxRecDepth 8000 in
/-- Witness for C2's amended theorem: on the example text the structured
decode fails and parse_amount equals the fallback value. -/
theorem C2_amended_witness :
    parse_amount mixedText = fallback_amount mixedText :=
  C2_amended.2.2.2.2 mixedText (by with_unfolding_all rfl)

set_option maxRecDepth 8000 in
/-- C3 is false on the code: with three outcomes sharing INV-001 the
duplicates list holds the identifier twice, not exactly once. -/
theorem C3_counterexample :
    (validate_and_analyze dupsThree).duplicates = ["INV-001", "INV-001"] ∧
    ¬ (validate_and_analyze dupsThree).duplicates.count "INV-001" = 1 := by
  constructor <;> with_unfolding_all decide

set_option maxRecDepth 8000 in
/-- C3 (amended): the duplicates list gains one entry per occurrence of a
non-empty identifier beyond its first, so exactly two sharers give
exactly one entry and n sharers give n - 1; empty identifiers are never
compared. -/
theorem C3_amended :
    (validate_and_analyze dupsTwo).duplicates = ["INV-001"] ∧
    (∀ n : Nat,
      (validate_and_analyze
          (List.replicate n ("a.pdf", inv001, ([] : List String)))).duplicates
        = List.replicate (n - 1) "INV-001") ∧
    (validate_and_analyze dupsBlank).duplicates = [] := by
  refine ⟨by with_unfolding_all decide, ?_, by with_unfolding_all decide⟩
  intro n
  have hd : ∀ l : List InvoiceEntry, (validate_and_analyze l).duplicates = dupScan l [] :=
    fun l => rfl
  rw [hd]
  cases n with
  | zero => rfl
  | succ m =>
    rw [List.replicate_succ]
    have step :
        dupScan (("a.pdf", inv001, ([] : List String))
            :: List.replicate m ("a.pdf", inv001, ([] : List String))) []
          = dupScan (List.replicate m ("a.pdf", inv001, ([] : List String)))
              [("INV-001", "a.pdf")] := by
      simp [dupScan, inv001, hasKey]
    rw [step, dupScan_rep m, Nat.add_sub_cancel]

set_option maxRecDepth 8000 in
/-- C4 is false on the code in its invocation count: the always-failing
provider is invoked 4 times with max_retries = 2, because the validation
step also calls it once before the 3 extraction attempts. -/
theorem C4_counterexample :
    (process_file envNetErr 2).calls.total = 4 ∧
    ¬ (process_file envNetErr 2).calls.total = 3 := by
  constructor <;> with_unfolding_all decide

set_option maxRecDepth 8000 in
/-- C4 (amended): with an always-raising provider and max_retries = 2 the
outcome is the zero-default info with a non-empty error list; the
extraction call runs exactly 3 times (1 initial + 2 retries), and with
the single validation call the provider is invoked 4 times in total. -/
theorem C4_amended :
    (process_file envNetErr 2).info = ({} : InvoiceInfo) ∧
    ¬ (process_file envNetErr 2).errors = [] ∧
    (process_file envNetErr 2).calls.extraction = 3 ∧
    (process_file envNetErr 2).calls.validation = 1 ∧
    (process_file envNetErr 2).calls.total = 4 := by
  refine ⟨?_, ?_, ?_, ?_, ?_⟩ <;> with_unfolding_all decide

set_option maxRecDepth 8000 in
/-- C5: two zero-amount responses followed by a positive one, with
max_retries = 3, give the positive amount with an empty error list after
exactly 3 extraction calls — and in general a positive parsed total
returns immediately with the errors accumulated so far, regardless of
the remaining retry budget. -/
theorem C5_retry_until_positive :
    (process_file envZeroZeroPos 3).info.total = 520.5 ∧
    (process_file envZeroZeroPos 3).errors = [] ∧
    (process_file envZeroZeroPos 3).calls.extraction = 3 ∧
    (∀ env maxRetries fuel retryCount st info errs resp,
      env.isPdf = false → retryCount ≠ 0 →
      env.respond st.total Prompt.extraction = Except.ok resp →
      0 < (parse_invoice_info resp).total →
      process_file_loop env maxRetries (fuel + 1) retryCount st info errs
        = ⟨parse_invoice_info resp, errs, bump st Prompt.extraction⟩) := by
  refine ⟨by with_unfolding_all decide, by with_unfolding_all decide,
    by with_unfolding_all decide, ?_⟩
  intro env maxRetries fuel retryCount st info errs resp hpdf hrc hresp hpos
  simp [process_file_loop, call_ollama_ocr, hpdf, hrc, hresp, hpos]

set_option maxRecDepth 8000 in
/-- Witness for C5's general clause: at the third extraction call of the
concrete stub the loop returns at once with no error recorded. -/
theorem C5_retry_witness :
    process_file_loop envZeroZeroPos 3 1 2 ⟨3, 1, 2⟩ {} []
      = ⟨parse_invoice_info posTotalText, [], bump ⟨3, 1, 2⟩ Prompt.extraction⟩ :=
  C5_retry_until_positive.2.2.2 envZeroZeroPos 3 0 2 ⟨3, 1, 2⟩ {} [] posTotalText
    rfl (by decide) (by with_unfolding_all rfl) (by with_unfolding_all decide)

set_option maxRecDepth 8000 in
/-- C6: parsing never raises — for every input string the
exception-level models of parse_amount and parse_invoice_info return
normally; every internal failure is caught by the except clauses. -/
theorem C6_parsing_never_raises (s : String) :
    (∃ q, parse_amountE s = Except.ok q) ∧
    (∃ info, parse_invoice_infoE s = Except.ok info) := by
  constructor
  · cases hs : parse_amount_structured s with
    | error e =>
      simp only [parse_amountE, hs, pyIsException, if_true]
      exact fallback_amount_E_ok s
    | ok o =>
      cases o with
      | some q => exact ⟨q, by simp only [parse_amountE, hs]⟩
      | none =>
        simp only [parse_amountE, hs]
        exact fallback_amount_E_ok s
  · cases hj : jsonLoads s with
    | none => exact ⟨{}, by simp [parse_invoice_infoE, hj, pyIsException]⟩
    | some data => exact ⟨_, parse_invoice_infoE_of_loads s data hj⟩

set_option maxRecDepth 8000 in
/-- C7: a negative classification short-circuits with exactly the one
marker 非发票 and the zero-default info after a single provider call;
validation runs only on the first attempt even when extraction retries;
and a provider error or an unparsable response during validation counts
as "assume valid". -/
theorem C7_validation_gate :
    (process_file envNotInvoice 3).errors = ["非发票"] ∧
    (process_file envNotInvoice 3).info = ({} : InvoiceInfo) ∧
    (process_file envNotInvoice 3).calls = ⟨1, 1, 0⟩ ∧
    (process_file envAlwaysZero 2).calls.validation = 1 ∧
    (process_file envAlwaysZero 2).calls.extraction = 3 ∧
    (∀ e, validate_is_invoice (Except.error e) = true) ∧
    validate_is_invoice (Except.ok unparsableText) = true := by
  refine ⟨?_, ?_, ?_, ?_, ?_, fun e => rfl, ?_⟩ <;> with_unfolding_all decide

set_option maxRecDepth 8000 in
/-- C8: valid_count counts outcomes with a positive total and an empty
error list, and total_amount sums the totals of all outcomes — the
errored ones contribute just like the error-free ones. -/
theorem C8_batch_sums (invoices : List InvoiceEntry) :
    (validate_and_analyze invoices).valid_count
        = (invoices.filter (fun x => decide (0 < x.2.1.total) && x.2.2.isEmpty)).length ∧
    (validate_and_analyze invoices).total_amount
        = (invoices.map (fun x => x.2.1.total)).sum ∧
    (validate_and_analyze invoices).total_amount
        = ((invoices.filter (fun x => x.2.2.isEmpty)).map (fun x => x.2.1.total)).sum
          + ((invoices.filter (fun x => !x.2.2.isEmpty)).map (fun x => x.2.1.total)).sum := by
  refine ⟨?_, rfl, ?_⟩
  · exact List.countP_eq_length_filter _ _
  · exact sum_totals_split invoices

set_option maxRecDepth 8000 in
/-- C9: an outcome is flagged as an outlier exactly when its total is
positive and exceeds 3 times the batch mean (sum of totals divided by
the count, only computed for a non-empty batch); on totals
100, 100, 100, 1000 the mean is 325 and only the 1000 entry is flagged,
since 1000 exceeds 975. -/
theorem C9_outlier_threshold :
    ((validate_and_analyze batch9).total_amount
        / ((validate_and_analyze batch9).total_count : ℚ)) = 325 ∧
    (validate_and_analyze batch9).warnings = [("d.pdf", (1000 : ℚ))] ∧
    (3 * 325 : ℚ) < 1000 ∧
    (∀ invoices : List InvoiceEntry, ∀ p : String, ∀ q : ℚ,
      (p, q) ∈ (validate_and_analyze invoices).warnings ↔
        (0 < invoices.length ∧ ∃ info errs, (p, info, errs) ∈ invoices ∧ info.total = q ∧
          0 < q ∧ ((invoices.map (fun x => x.2.1.total)).sum / (invoices.length : ℚ)) * 3 < q)) := by
  refine ⟨by with_unfolding_all decide, by with_unfolding_all decide, by norm_num, ?_⟩
  intro invoices p q
  have hw : (validate_and_analyze invoices).warnings
      = if 0 < invoices.length then
          warnScan ((invoices.map (fun x => x.2.1.total)).sum / (invoices.length : ℚ)) invoices
        else [] := rfl
  rw [hw]
  by_cases hlen : 0 < invoices.length
  · rw [if_pos hlen, warnScan_eq]
    simp only [List.mem_map, List.mem_filter, Bool.and_eq_true, decide_eq_true_eq]
    constructor
    · rintro ⟨⟨xp, xinfo, xerrs⟩, ⟨hmem, hpos, havg⟩, hpe⟩
      obtain ⟨hp, hq⟩ := Prod.mk.injEq .. ▸ hpe
      subst hp
      exact ⟨hlen, xinfo, xerrs, hmem, hq, hq ▸ hpos, hq ▸ havg⟩
    · rintro ⟨-, info, errs, hmem, hq, hqpos, havg⟩
      refine ⟨(p, info, errs), ⟨hmem, ?_, ?_⟩, ?_⟩
      · rw [hq]; exact hqpos
      · rw [hq]; exact havg
      · simp [hq]
  · rw [if_neg hlen]
    simp only [List.not_mem_nil, false_iff]
    rintro ⟨h1, -⟩
    exact hlen h1

set_option maxRecDepth 8000 in
/-- C10: a configuration without a "provider" key behaves exactly as
provider = "ollama" and yields the default OllamaProvider; an error is
raised precisely for a present-but-unrecognized provider value. -/
theorem C10_provider_defaults :
    create_provider [] = Except.ok (Provider.ollamaP
        (PyVal.str "192.168.110.219") (PyVal.int 11434) (PyVal.str "qwen3-vl:8b")) ∧
    (∀ config : Config, config.lookup "provider" = none →
      create_provider config
        = create_provider (("provider", PyVal.str "ollama") :: config)) ∧
    (∀ config : Config,
      (∃ e, create_provider config = Except.error e) ↔
        cfgGet config "provider" (PyVal.str "ollama")
          ∉ [PyVal.str "ollama", PyVal.str "volcengine", PyVal.str "openrouter"]) := by
  refine ⟨by with_unfolding_all rfl, ?_, ?_⟩
  · intro config h
    simp [create_provider, cfgGet, List.lookup, h]
  · intro config
    unfold create_provider
    by_cases h1 : cfgGet config "provider" (PyVal.str "ollama") = PyVal.str "ollama"
    · simp [h1]
    · by_cases h2 : cfgGet config "provider" (PyVal.str "ollama") = PyVal.str "volcengine"
      · simp [h1, h2]
      · by_cases h3 : cfgGet config "provider" (PyVal.str "ollama") = PyVal.str "openrouter"
        · simp [h1, h2, h3]
        · simp [h1, h2, h3]

set_option maxRecDepth 8000 in
/-- Witness for C10's missing-key clause at a concrete configuration. -/
theorem C10_provider_witness :
    create_provider [("ollama_port", PyVal.int 9999)]
      = create_provider
          (("provider", PyVal.str "ollama") :: [("ollama_port", PyVal.int 9999)]) :=
  C10_provider_defaults.2.1 [("ollama_port", PyVal.int 9999)] (by with_unfolding_all rfl)

end InvoiceOcr
